import Mathlib

/-!
Shallow embedding of the MFRC522 driver core (src/lib/index.js) and proofs
about it.  The chip and SPI bus are modelled as an oracle: the k-th SPI read
transaction returns the byte `reads k % 256`; every transaction is recorded,
most recent first, in a log.  Machine arithmetic follows the JavaScript
source: register values are bytes (Nat, reduced mod 256 at the transport) and
the one place where the source relies on 32-bit signed semantics (the
`_toCard` poll-loop exit test) is modelled with an explicit ToInt32.
-/

namespace Mfrc522

/-- Maximum response length drained from the FIFO (source line 6). -/
def MAX_LEN : Nat := 16

/-- Register address: set command to execute (source line 8). -/
def COMMAND_REGISTER : Nat := 0x01

/-- Register address: enable / disable interrupts (source line 9). -/
def COMMIEN_REGISTER : Nat := 0x02

/-- Register address: interrupt request bits (source line 11). -/
def COMMIRQ_REGISTER : Nat := 0x04

/-- Register address: additional irq request bits (source line 12). -/
def DIVIRQ_REGISTER : Nat := 0x05

/-- Register address: error flag bits (source line 13). -/
def ERROR_REGISTER : Nat := 0x06

/-- Register address: status bits for transmitter and data mode detector (line 15). -/
def STATUS2_REGISTER : Nat := 0x08

/-- Register address: data input / output for the 64-byte FIFO (source line 16). -/
def FIFODATA_REGISTER : Nat := 0x09

/-- Register address: number of bytes stored in the FIFO (source line 17). -/
def FIFOLEVEL_REGISTER : Nat := 0x0A

/-- Register address: miscellaneous control bits (source line 19). -/
def CONTROL_REGISTER : Nat := 0x0C

/-- Register address: transceiver bit framing settings (source line 20). -/
def BITFRAMING_REGISTER : Nat := 0x0D

/-- Register address: CRC result high byte (source line 25). -/
def CRCRESULTM_REGISTER : Nat := 0x21

/-- Register address: CRC result low byte (source line 26). -/
def CRCRESULTL_REGISTER : Nat := 0x22

/-- Controller command: no action / cancel (source line 32). -/
def PCD_IDLE : Nat := 0x00

/-- Controller command: activate the CRC coprocessor (source line 35). -/
def PCD_CALCCRC : Nat := 0x03

/-- Controller command: transmit FIFO and auto activate receiver (source line 39). -/
def PCD_TRANSCEIVE : Nat := 0x0C

/-- Controller command: MIFARE standard authentication (source line 40). -/
def PCD_AUTHENTICATE : Nat := 0x0E

/-- PICC command byte: REQA, expects ATQA if a card is present (source line 43). -/
def PICC_REQIDL : Nat := 0x26

/-- PICC command byte: anti-collision cascade level 1 (source line 45). -/
def PICC_ANTICOLL : Nat := 0x93

/-- PICC command byte: authenticate with key A (source line 47). -/
def PICC_AUTHENT1A : Nat := 0x60

/-- PICC command byte: read a sector (source line 49). -/
def PICC_READ : Nat := 0x30

/-- PICC command byte: write a sector (source line 50). -/
def PICC_WRITE : Nat := 0xA0

/-- Status value: success (source line 57). -/
def MI_OK : Nat := 0

/-- Status value: no tag (source line 58). -/
def MI_NOTAGERR : Nat := 1

/-- Status value: error (source line 59). -/
def MI_ERR : Nat := 2

/-- One observable transport-level action: an SPI register read, an SPI
register write of a byte, or a millisecond delay. -/
inductive SpiOp where
  | rd (register : Nat)
  | wr (register : Nat) (value : Nat)
  | delay (ms : Nat)
deriving DecidableEq

/-- The chip/bus environment.  `reads` is the oracle giving (mod 256) the byte
returned by the k-th SPI read transaction since the start of the trace;
`cursor` counts the reads performed so far; `log` records every transaction,
most recent first.  Writes never change the oracle: the oracle stream already
fixes an arbitrary chip behaviour for the deterministic call sequence. -/
structure SpiState where
  reads : Nat → Nat
  cursor : Nat
  log : List SpiOp

/-- Source `_readSPI` (lines 362-378): one SPI read transaction returning the
byte `receiveBuffer[1]`, modelled as the next oracle value reduced to a byte. -/
def readSPI (register : Nat) (s : SpiState) : Nat × SpiState :=
  (s.reads s.cursor % 256,
   { s with cursor := s.cursor + 1, log := SpiOp.rd register :: s.log })

/-- Source `_writeSPI` (lines 343-360): one SPI write transaction sending the
register address and the value byte. -/
def writeSPI (register value : Nat) (s : SpiState) : SpiState :=
  { s with log := SpiOp.wr register (value % 256) :: s.log }

/-- Source `_wait` (lines 407-411): a millisecond delay, recorded in the log. -/
def wait (ms : Nat) (s : SpiState) : SpiState :=
  { s with log := SpiOp.delay ms :: s.log }

/-- Source `_setBitMask` (lines 328-331): read a register and write back the
value with `mask` bits set. -/
def setBitMask (register mask : Nat) (s : SpiState) : SpiState :=
  let p := readSPI register s
  writeSPI register (p.1 ||| mask) p.2

/-- Source `_clearBitMask` (lines 333-336): read a register and write back
`temp & ~mask`.  The JavaScript `~` is 32-bit, but `temp` is a byte, so the
written byte equals `temp &&& (0xFF ^^^ mask)` for the byte-sized masks used. -/
def clearBitMask (register mask : Nat) (s : SpiState) : SpiState :=
  let p := readSPI register s
  writeSPI register (p.1 &&& (0xFF ^^^ mask % 256)) p.2

/-- JavaScript values flowing through the `_toCard` loop-exit expression. -/
inductive JSVal where
  | bool (b : Bool)
  | num (x : Int)

/-- JavaScript truthiness: a boolean is itself; a number is truthy iff nonzero. -/
def JSVal.truthy : JSVal → Bool
  | .bool b => b
  | .num x => x ≠ 0

/-- ECMAScript ToInt32 of the values above (2147483648 = 2^31,
4294967296 = 2^32). -/
def JSVal.toInt32 : JSVal → Int
  | .bool b => if b then 1 else 0
  | .num x => (x + 2147483648) % 4294967296 - 2147483648

/-- JavaScript bitwise NOT: `~v = -(ToInt32 v) - 1`. -/
def jsBitNot (v : JSVal) : JSVal := .num (-(v.toInt32) - 1)

/-- JavaScript `&&` on effect-free operands: the first operand if it is
falsy, otherwise the second. -/
def jsAnd (a b : JSVal) : JSVal := if a.truthy then b else a

/-- Exit test of the `_toCard` poll loop, exactly as written on source line
262: `~((i !== 0) && ~(n & 0x01) && ~(n & waitIRq))`, used as an `if`
condition (so reduced to its truthiness). -/
def toCardBreakCond (i n waitIRq : Nat) : Bool :=
  (jsBitNot (jsAnd (jsAnd (JSVal.bool (decide (i ≠ 0)))
      (jsBitNot (JSVal.num ((n &&& 0x01 : Nat) : Int))))
      (jsBitNot (JSVal.num ((n &&& waitIRq : Nat) : Int))))).truthy

/-- Poll loop of `_toCard` (source lines 258-266): repeatedly read the
IRQ-request register, decrement the budget counter, and stop when the exit
test fires.  Returns the final counter value and the last byte read.  The
loop is entered with a budget of 2000; the `0` case is unreachable from that
entry because the exit test always fires once the decremented counter
reaches 0. -/
def pollLoop (waitIRq : Nat) : Nat → SpiState → (Nat × Nat) × SpiState
  | 0, s =>
    let p := readSPI COMMIRQ_REGISTER s
    ((0, p.1), p.2)
  | i + 1, s =>
    let p := readSPI COMMIRQ_REGISTER s
    if toCardBreakCond i p.1 waitIRq then ((i, p.1), p.2)
    else pollLoop waitIRq i p.2

/-- Per-command IRQ-enable mask of `_toCard` (source lines 231-241). -/
def toCardIrqEn (command : Nat) : Nat :=
  if command = PCD_AUTHENTICATE then 0x12
  else if command = PCD_TRANSCEIVE then 0x77
  else 0x00

/-- Per-command wait mask of `_toCard` (source lines 231-241). -/
def toCardWaitIRq (command : Nat) : Nat :=
  if command = PCD_AUTHENTICATE then 0x10
  else if command = PCD_TRANSCEIVE then 0x30
  else 0x00

/-- Setup phase of `_toCard` (source lines 243-256): program the IRQ enables,
clear pending IRQs, flush the FIFO, idle the chip, load the data bytes into
the FIFO, start the command, and for transceive set the start-send bit. -/
def toCardSetup (command : Nat) (data : List Nat) (s0 : SpiState) : SpiState :=
  let s1 := writeSPI COMMIEN_REGISTER (toCardIrqEn command ||| 0x80) s0
  let s2 := clearBitMask COMMIRQ_REGISTER 0x80 s1
  let s3 := setBitMask FIFOLEVEL_REGISTER 0x80 s2
  let s4 := writeSPI COMMAND_REGISTER PCD_IDLE s3
  let s5 := data.foldl (fun s b => writeSPI FIFODATA_REGISTER b s) s4
  let s6 := writeSPI COMMAND_REGISTER command s5
  if command = PCD_TRANSCEIVE then setBitMask BITFRAMING_REGISTER 0x80 s6 else s6

/-- FIFO-drain loop of `_toCard` (source lines 298-303): read `k` bytes from
the FIFO data register, in order. -/
def readFifo : Nat → SpiState → List Nat × SpiState
  | 0, s => ([], s)
  | k + 1, s =>
    let p := readSPI FIFODATA_REGISTER s
    let q := readFifo k p.2
    (p.1 :: q.1, q.2)

/-- Result record of `_toCard` (source line 311).  `backLen` is an Int since
the JavaScript computation `(n - 1) * 8 + lastBits` can go negative. -/
structure ToCardResult where
  status : Nat
  backData : List Nat
  backLen : Int
deriving DecidableEq

/-- Receive phase of `_toCard` (source lines 268-312), parameterised by the
poll-loop outcome: `i` is the final budget counter, `n` the last IRQ byte
read, `s8` the state after the poll.  Clear the start-send bit; on budget
exhaustion return an error; otherwise validate the error register, derive the
status (with the no-tag override), and for transceive read the FIFO level and
last-bit count, compute the bit length, clamp the count to 1..MAX_LEN and
drain the FIFO. -/
def toCardReceive (command i n : Nat) (s8 : SpiState) : ToCardResult × SpiState :=
  let irqEn := toCardIrqEn command
  let s9 := clearBitMask BITFRAMING_REGISTER 0x80 s8
  if i ≠ 0 then
    let pe := readSPI ERROR_REGISTER s9
    if pe.1 &&& 0x1B = 0 then
      let status := if n &&& irqEn &&& 0x01 ≠ 0 then MI_NOTAGERR else MI_OK
      if command = PCD_TRANSCEIVE then
        let pn := readSPI FIFOLEVEL_REGISTER pe.2
        let pc := readSPI CONTROL_REGISTER pn.2
        let lastBits := pc.1 &&& 0x07
        let backLen : Int :=
          if lastBits ≠ 0 then ((pn.1 : Int) - 1) * 8 + (lastBits : Int)
          else (pn.1 : Int) * 8
        let n1 := if pn.1 = 0 then 1 else pn.1
        let n2 := if n1 > MAX_LEN then MAX_LEN else n1
        let pb := readFifo n2 pc.2
        (⟨status, pb.1, backLen⟩, pb.2)
      else (⟨status, [], 0⟩, pe.2)
    else (⟨MI_ERR, [], 0⟩, pe.2)
  else (⟨MI_ERR, [], 0⟩, s9)

/-- Source `_toCard` (lines 221-313): the transceive engine.  Set up and
start the command, run the poll loop with a budget of 2000, then run the
receive phase on the poll outcome. -/
def toCard (command : Nat) (data : List Nat) (s0 : SpiState) : ToCardResult × SpiState :=
  let pr := pollLoop (toCardWaitIRq command) 2000 (toCardSetup command data s0)
  toCardReceive command pr.1.1 pr.1.2 pr.2

/-- Do-while poll of `_calculateCRC` (source lines 193-199): wait 5 ms, read
the DIVIRQ register, decrement `attempts`; continue while `attempts` is
nonzero and the CRC-done bit 0x04 is clear.  Entered with `attempts = 0xFF`;
the `0` case is unreachable from that entry. -/
def crcPoll : Nat → SpiState → Nat × SpiState
  | 0, s =>
    let p := readSPI DIVIRQ_REGISTER (wait 5 s)
    (p.1, p.2)
  | a + 1, s =>
    let p := readSPI DIVIRQ_REGISTER (wait 5 s)
    if a ≠ 0 ∧ p.1 &&& 0x04 = 0 then crcPoll a p.2
    else (p.1, p.2)

/-- Setup phase of `_calculateCRC` (source lines 186-192): clear the CRC-done
flag, flush the FIFO, idle the chip (`idlePCD`), load the input bytes into
the FIFO, and start the calc-CRC command. -/
def crcSetup (buf : List Nat) (s0 : SpiState) : SpiState :=
  let s1 := clearBitMask DIVIRQ_REGISTER 0x04 s0
  let s2 := setBitMask FIFOLEVEL_REGISTER 0x80 s1
  let s3 := writeSPI COMMAND_REGISTER PCD_IDLE s2
  let s4 := buf.foldl (fun s b => writeSPI FIFODATA_REGISTER b s) s3
  writeSPI COMMAND_REGISTER PCD_CALCCRC s4

/-- Source `_calculateCRC` (lines 185-204): run the CRC coprocessor over
`buf` and return the low then high result register bytes. -/
def calculateCRC (buf : List Nat) (s0 : SpiState) : List Nat × SpiState :=
  let p := crcPoll 0xFF (crcSetup buf s0)
  let plo := readSPI CRCRESULTL_REGISTER p.2
  let phi := readSPI CRCRESULTM_REGISTER plo.2
  ([plo.1, phi.1], phi.2)

/-- Source `_uidChecksum` (lines 338-340):
`uid.reduce((c, b, i) => i < 4 ? c ^ b : c, 0)`. -/
def uidChecksum (uid : List Nat) : Nat :=
  uid.enum.foldl (fun c p => if p.1 < 4 then c ^^^ p.2 else c) 0

/-- Source `_cardPresent` (lines 104-112): transceive a single REQA byte with
7-bit framing; force the status to error unless it is OK with a 16-bit
response; report whether the status is OK. -/
def cardPresent (s0 : SpiState) : Bool × SpiState :=
  let s1 := writeSPI BITFRAMING_REGISTER 0x07 s0
  let p := toCard PCD_TRANSCEIVE [PICC_REQIDL] s1
  let status := if p.1.status ≠ MI_OK ∨ p.1.backLen ≠ 0x10 then MI_ERR else p.1.status
  (decide (status = MI_OK), p.2)

/-- Source `_antiCollision` (lines 114-127): transceive the anti-collision
frame and return the first four response bytes when the status is OK, exactly
five bytes came back, and the fifth equals the checksum of the first four;
the JavaScript `false` results become `none`. -/
def antiCollision (s0 : SpiState) : Option (List Nat) × SpiState :=
  let s1 := writeSPI BITFRAMING_REGISTER 0x00 s0
  let p := toCard PCD_TRANSCEIVE [PICC_ANTICOLL, 0x20] s1
  if p.1.status ≠ MI_OK then (none, p.2)
  else if p.1.backData.length ≠ 5 then (none, p.2)
  else if uidChecksum (p.1.backData.take 4) ≠ p.1.backData.getD 4 0 then (none, p.2)
  else (some (p.1.backData.take 4), p.2)

/-- Source `_auth1A` (lines 137-151): issue the authenticate command; fail if
the status is not OK; then fail unless the crypto bit 0x08 is set in status
register 2. -/
def auth1A (sector : Nat) (key uid : List Nat) (s0 : SpiState) : Bool × SpiState :=
  let p := toCard PCD_AUTHENTICATE ([PICC_AUTHENT1A, sector] ++ key ++ uid) s0
  if p.1.status ≠ MI_OK then (false, p.2)
  else
    let ps := readSPI STATUS2_REGISTER p.2
    if ps.1 &&& 0x08 = 0 then (false, ps.2) else (true, ps.2)

/-- Source `_readSector` (lines 157-165): transceive `[READ, sector]` plus its
CRC; return the response bytes when the status is OK, else `none`. -/
def readSector (sector : Nat) (s0 : SpiState) : Option (List Nat) × SpiState :=
  let pc := calculateCRC [PICC_READ, sector] s0
  let p := toCard PCD_TRANSCEIVE ([PICC_READ, sector] ++ pc.1) pc.2
  if p.1.status ≠ MI_OK then (none, p.2) else (some p.1.backData, p.2)

/-- Source `_writeSector` (lines 167-183).  Note the first-phase test on line
171 is `r.status !== MI_OK || r.backLen !== 4 || r.backData[0] & 0x0F !== 0x0A`,
which JavaScript parses as `r.backData[0] & (0x0F !== 0x0A)`, that is
`r.backData[0] & 1`, truthy iff the first response byte is odd; the
second-phase test on line 178 is parenthesized and compares the low nibble
with 0x0A.  A missing first response byte reads as `undefined`, whose ToInt32
is 0, matching `getD 0 0`. -/
def writeSector (sector : Nat) (data : List Nat) (s0 : SpiState) : Bool × SpiState :=
  let pc1 := calculateCRC [PICC_WRITE, sector] s0
  let p1 := toCard PCD_TRANSCEIVE ([PICC_WRITE, sector] ++ pc1.1) pc1.2
  if p1.1.status ≠ MI_OK ∨ p1.1.backLen ≠ 4 ∨ p1.1.backData.getD 0 0 &&& 1 ≠ 0 then
    (false, p1.2)
  else if p1.1.status = MI_OK then
    let pc2 := calculateCRC data p1.2
    let p2 := toCard PCD_TRANSCEIVE (data ++ pc2.1) pc2.2
    if p2.1.status ≠ MI_OK ∨ p2.1.backLen ≠ 4 ∨ p2.1.backData.getD 0 0 &&& 0x0F ≠ 0x0A then
      (false, p2.2)
    else (true, p2.2)
  else (true, p1.2)

/-- Transactions of `p` iterations of the CRC poll, most recent first: each
iteration is a 5 ms delay followed by a read of the DIVIRQ register. -/
def pollOps : Nat → List SpiOp
  | 0 => []
  | p + 1 => SpiOp.rd DIVIRQ_REGISTER :: SpiOp.delay 5 :: pollOps p

/-- Oracle on which every read returns 0x37: no waitMask bit, no done bit. -/
def allIdleState : SpiState := ⟨fun _ => 0x37, 0, []⟩

/-- Oracle on which every IRQ-request read returns 0x01: Timer IRQ set,
nothing else. -/
def timerOnlyState : SpiState := ⟨fun _ => 0x01, 0, []⟩

/-- Oracle driving one transceive: the poll read returns 0x30 (waitMask hit),
the error register 0, the FIFO level 0, the control register 0, and the FIFO
data register 0x99. -/
def fifoZeroState : SpiState :=
  ⟨fun k => [0, 0, 0, 0x30, 0, 0, 0, 0, 0x99].getD k 0, 0, []⟩

/-- Oracle driving `_readSector`: the CRC poll finishes at once, the
transceive completes OK via a waitMask hit, and the FIFO level reads 1, so a
single byte 0x42 is drained. -/
def shortPayloadState : SpiState :=
  ⟨fun k => [0, 0, 4, 0, 0, 0, 0, 0, 0x30, 0, 0, 1, 0, 0x42].getD k 0, 0, []⟩

/-- Oracle driving `_writeSector`: both CRC polls finish at once; the first
transceive completes OK with bit length 4 and first response byte 0x02
(acknowledgment nibble 0x2); the second completes OK with bit length 4 and
first response byte 0x0A. -/
def badAckState : SpiState :=
  ⟨fun k => [0, 0, 4, 0, 0, 0, 0, 0, 0x30, 0, 0, 1, 4, 2,
             0, 0, 4, 0, 0, 0, 0, 0, 0x30, 0, 0, 1, 4, 0x0A].getD k 0, 0, []⟩

/-- Oracle on which every read returns 0x04: the CRC done bit is always
set. -/
def crcDoneState : SpiState := ⟨fun _ => 0x04, 0, []⟩

/-! Basic facts about the transport operations. -/

lemma readSPI_reads (r : Nat) (s : SpiState) : (readSPI r s).2.reads = s.reads := rfl

lemma readSPI_cursor (r : Nat) (s : SpiState) : (readSPI r s).2.cursor = s.cursor + 1 := rfl

lemma readSPI_val (r : Nat) (s : SpiState) : (readSPI r s).1 = s.reads s.cursor % 256 := rfl

lemma writeSPI_reads (r v : Nat) (s : SpiState) : (writeSPI r v s).reads = s.reads := rfl

lemma writeSPI_cursor (r v : Nat) (s : SpiState) : (writeSPI r v s).cursor = s.cursor := rfl

lemma setBitMask_reads (r m : Nat) (s : SpiState) : (setBitMask r m s).reads = s.reads := rfl

lemma setBitMask_cursor (r m : Nat) (s : SpiState) :
    (setBitMask r m s).cursor = s.cursor + 1 := rfl

lemma clearBitMask_reads (r m : Nat) (s : SpiState) : (clearBitMask r m s).reads = s.reads := rfl

lemma clearBitMask_cursor (r m : Nat) (s : SpiState) :
    (clearBitMask r m s).cursor = s.cursor + 1 := rfl

lemma wait_reads (ms : Nat) (s : SpiState) : (wait ms s).reads = s.reads := rfl

lemma wait_cursor (ms : Nat) (s : SpiState) : (wait ms s).cursor = s.cursor := rfl

lemma foldl_writeSPI_reads (l : List Nat) (s : SpiState) :
    (l.foldl (fun s b => writeSPI FIFODATA_REGISTER b s) s).reads = s.reads := by
  induction l generalizing s with
  | nil => rfl
  | cons b t ih => simpa [List.foldl_cons] using ih (writeSPI FIFODATA_REGISTER b s)

lemma foldl_writeSPI_cursor (l : List Nat) (s : SpiState) :
    (l.foldl (fun s b => writeSPI FIFODATA_REGISTER b s) s).cursor = s.cursor := by
  induction l generalizing s with
  | nil => rfl
  | cons b t ih => simpa [List.foldl_cons] using ih (writeSPI FIFODATA_REGISTER b s)

lemma toCardSetup_reads (c : Nat) (data : List Nat) (s : SpiState) :
    (toCardSetup c data s).reads = s.reads := by
  unfold toCardSetup
  split <;> simp [setBitMask_reads, clearBitMask_reads, writeSPI_reads, foldl_writeSPI_reads]

lemma toCardSetup_cursor (c : Nat) (data : List Nat) (s : SpiState) :
    (toCardSetup c data s).cursor = s.cursor + (if c = PCD_TRANSCEIVE then 3 else 2) := by
  unfold toCardSetup
  split <;>
    simp [setBitMask_cursor, clearBitMask_cursor, writeSPI_cursor, foldl_writeSPI_cursor,
      setBitMask_reads, clearBitMask_reads, writeSPI_reads, foldl_writeSPI_reads]

lemma crcSetup_reads (buf : List Nat) (s : SpiState) : (crcSetup buf s).reads = s.reads := by
  unfold crcSetup
  simp [clearBitMask_reads, setBitMask_reads, writeSPI_reads, foldl_writeSPI_reads]

lemma crcSetup_cursor (buf : List Nat) (s : SpiState) :
    (crcSetup buf s).cursor = s.cursor + 2 := by
  unfold crcSetup
  simp [clearBitMask_cursor, setBitMask_cursor, writeSPI_cursor, foldl_writeSPI_cursor]

/-! JavaScript semantics of the poll-loop exit test. -/

lemma toInt32_small (x : Int) (h1 : -2147483648 ≤ x) (h2 : x < 2147483648) :
    JSVal.toInt32 (.num x) = x := by
  simp only [JSVal.toInt32]
  omega

lemma truthy_num (x : Int) : (JSVal.num x).truthy = decide (x ≠ 0) := rfl

lemma jsAnd_bool_true (b : JSVal) : jsAnd (JSVal.bool true) b = b := rfl

lemma jsAnd_bool_false (b : JSVal) : jsAnd (JSVal.bool false) b = JSVal.bool false := rfl

lemma jsAnd_num_of_ne (x : Int) (b : JSVal) (h : x ≠ 0) : jsAnd (JSVal.num x) b = b := by
  simp [jsAnd, JSVal.truthy, h]

/-- The exit test of the source poll loop fires exactly when the budget has
hit zero or a `waitIRq` bit was observed; the Timer-IRQ test `~(n & 0x01)` of
the source is always truthy and never causes an exit. -/
lemma toCardBreakCond_eq (i n w : Nat) (hn : n ≤ 255) :
    toCardBreakCond i n w = (decide (i = 0) || decide (n &&& w ≠ 0)) := by
  have hb1 : (n &&& 0x01) ≤ n := Nat.and_le_left
  have hb2 : (n &&& w) ≤ n := Nat.and_le_left
  have t1 : JSVal.toInt32 (JSVal.num ((n &&& 0x01 : Nat) : Int)) = ((n &&& 0x01 : Nat) : Int) :=
    toInt32_small _ (by omega) (by omega)
  have t2 : JSVal.toInt32 (JSVal.num ((n &&& w : Nat) : Int)) = ((n &&& w : Nat) : Int) :=
    toInt32_small _ (by omega) (by omega)
  by_cases hi : i = 0
  · subst hi
    have hd : decide ((0 : Nat) ≠ 0) = false := by decide
    rw [toCardBreakCond, hd, jsAnd_bool_false, jsAnd_bool_false]
    simp [jsBitNot, JSVal.toInt32, JSVal.truthy]
  · have hd : decide (i ≠ 0) = true := by simp [hi]
    rw [toCardBreakCond, hd, jsAnd_bool_true]
    rw [show jsBitNot (JSVal.num ((n &&& 0x01 : Nat) : Int)) =
        JSVal.num (-((n &&& 0x01 : Nat) : Int) - 1) by rw [jsBitNot, t1]]
    rw [jsAnd_num_of_ne _ _ (by omega)]
    rw [show jsBitNot (JSVal.num ((n &&& w : Nat) : Int)) =
        JSVal.num (-((n &&& w : Nat) : Int) - 1) by rw [jsBitNot, t2]]
    rw [show jsBitNot (JSVal.num (-((n &&& w : Nat) : Int) - 1)) =
        JSVal.num (-(-((n &&& w : Nat) : Int) - 1) - 1) by
      rw [jsBitNot, toInt32_small _ (by omega) (by omega)]]
    rw [truthy_num]
    have hdi : decide (i = 0) = false := by simp [hi]
    rw [hdi, Bool.false_or]
    rw [decide_eq_decide]
    omega

/-! Facts about the `_toCard` poll loop. -/

lemma pollLoop_reads (w : Nat) :
    ∀ (a : Nat) (s : SpiState), (pollLoop w a s).2.reads = s.reads := by
  intro a
  induction a with
  | zero => intro s; rfl
  | succ k ih =>
    intro s
    simp only [pollLoop]
    split
    · rfl
    · exact ih _

/-- One-step unfolding of the poll loop with positive budget. -/
lemma pollLoop_succ (w i : Nat) (s : SpiState) :
    pollLoop w (i + 1) s =
      if toCardBreakCond i (s.reads s.cursor % 256) w
      then ((i, s.reads s.cursor % 256), (readSPI COMMIRQ_REGISTER s).2)
      else pollLoop w i (readSPI COMMIRQ_REGISTER s).2 := rfl

/-- When no observed IRQ byte ever has a `waitIRq` bit set, the poll loop
runs its whole budget and exits with the counter at zero, having performed
exactly `a` reads. -/
lemma pollLoop_no_hit (w : Nat) :
    ∀ (a : Nat) (s : SpiState), (∀ k, s.reads k % 256 &&& w = 0) → 1 ≤ a →
    (pollLoop w a s).1.1 = 0 ∧ (pollLoop w a s).2.cursor = s.cursor + a := by
  intro a
  induction a with
  | zero => intro s _ h; omega
  | succ k ih =>
    intro s hr _
    have hn : s.reads s.cursor % 256 ≤ 255 := by
      have := Nat.mod_lt (s.reads s.cursor) (show 0 < 256 by norm_num)
      omega
    have hbc : toCardBreakCond k (s.reads s.cursor % 256) w =
        (decide (k = 0) || decide (s.reads s.cursor % 256 &&& w ≠ 0)) :=
      toCardBreakCond_eq _ _ _ hn
    have hz : s.reads s.cursor % 256 &&& w = 0 := hr s.cursor
    cases k with
    | zero =>
      rw [pollLoop_succ, if_pos (by rw [hbc]; simp)]
      exact ⟨rfl, rfl⟩
    | succ k' =>
      rw [pollLoop_succ, if_neg (by rw [hbc]; simp [hz])]
      have ihh := ih (readSPI COMMIRQ_REGISTER s).2 (by
        intro j
        rw [readSPI_reads]
        exact hr j) (by omega)
      rw [readSPI_cursor] at ihh
      exact ⟨ihh.1, by rw [ihh.2]; omega⟩

/-! Facts about the FIFO drain loop. -/

lemma readFifo_length : ∀ (k : Nat) (s : SpiState), (readFifo k s).1.length = k := by
  intro k
  induction k with
  | zero => intro s; rfl
  | succ j ih => intro s; simp [readFifo, ih]

/-! Facts about the receive phase of the transceive engine. -/

/-- On budget exhaustion the receive phase returns an error with an empty
response after the single bit-framing read. -/
lemma toCardReceive_budget (c n : Nat) (s : SpiState) :
    toCardReceive c 0 n s = (⟨MI_ERR, [], 0⟩, clearBitMask BITFRAMING_REGISTER 0x80 s) := by
  simp [toCardReceive]

/-- The receive phase never produces more than 16 response bytes. -/
lemma toCardReceive_len_le (c i n : Nat) (s : SpiState) :
    (toCardReceive c i n s).1.backData.length ≤ 16 := by
  simp only [toCardReceive]
  split
  · split
    · split
      · rw [readFifo_length]
        simp only [MAX_LEN]
        split_ifs <;> omega
      · simp
    · simp
  · simp

/-! Claim theorems. -/

/-- Claim C10: for every command other than transceive and authenticate, and
every data sequence and chip behaviour, `_toCard` uses irqEnableMask 0x00 and
waitMask 0x00, its poll loop runs the full 2000-iteration budget (the final
cursor shows 2 setup reads, 2000 poll reads and 1 bit-framing read), and the
call returns status `MI_ERR` with an empty response and bit length 0. -/
theorem toCard_other_commands (command : Nat) (data : List Nat) (s0 : SpiState)
    (h1 : command ≠ PCD_TRANSCEIVE) (h2 : command ≠ PCD_AUTHENTICATE) :
    toCardIrqEn command = 0 ∧ toCardWaitIRq command = 0 ∧
    (toCard command data s0).1 = ⟨MI_ERR, [], 0⟩ ∧
    (toCard command data s0).2.cursor = s0.cursor + 2003 := by
  have he : toCardIrqEn command = 0 := by simp [toCardIrqEn, h1, h2]
  have hw : toCardWaitIRq command = 0 := by simp [toCardWaitIRq, h1, h2]
  have hsc : (toCardSetup command data s0).cursor = s0.cursor + 2 := by
    rw [toCardSetup_cursor, if_neg h1]
  have hpoll := pollLoop_no_hit 0 2000 (toCardSetup command data s0)
      (by intro k; simp) (by norm_num)
  refine ⟨he, hw, ?_, ?_⟩
  · simp only [toCard, hw]
    rw [hpoll.1, toCardReceive_budget]
  · simp only [toCard, hw]
    rw [hpoll.1, toCardReceive_budget]
    simp only [clearBitMask_cursor]
    rw [hpoll.2, hsc]

theorem toCard_other_commands_witness :
    (PCD_IDLE ≠ PCD_TRANSCEIVE ∧ PCD_IDLE ≠ PCD_AUTHENTICATE) ∧
    (toCardIrqEn PCD_IDLE = 0 ∧ toCardWaitIRq PCD_IDLE = 0 ∧
     (toCard PCD_IDLE [] allIdleState).1 = ⟨MI_ERR, [], 0⟩ ∧
     (toCard PCD_IDLE [] allIdleState).2.cursor = allIdleState.cursor + 2003) :=
  ⟨⟨by decide, by decide⟩,
   toCard_other_commands PCD_IDLE [] allIdleState (by decide) (by decide)⟩

/-- Claim C1 (refuting evaluation): the poll-loop exit test of `_toCard`, as
written in the source, does not fire for a read with only the Timer-IRQ bit
(0x01) set while the budget is not exhausted and no waitMask (0x30) bit is
set; consequently, on a chip whose IRQ-request register always reads 0x01,
the transceive poll loop runs all 2000 iterations and exits only by budget
exhaustion, where the claim requires termination at the first read. -/
theorem toCard_poll_timer_irq_ignored :
    toCardBreakCond 1999 0x01 0x30 = false ∧
    (pollLoop 0x30 2000 timerOnlyState).1.1 = 0 ∧
    (pollLoop 0x30 2000 timerOnlyState).2.cursor = 2000 := by
  have h := pollLoop_no_hit 0x30 2000 timerOnlyState
      (by intro k; simp [timerOnlyState]) (by norm_num)
  exact ⟨by decide, h.1, h.2⟩

/-- Claim C4: `_toCard` with the transceive command never pushes more than 16
bytes into the response buffer, whatever the FIFO level register reports. -/
theorem toCard_transceive_response_le_16 (data : List Nat) (s0 : SpiState) :
    (toCard PCD_TRANSCEIVE data s0).1.backData.length ≤ 16 := by
  simp only [toCard]
  exact toCardReceive_len_le _ _ _ _

/-- Receive phase of a transceive whose poll exited with budget left, whose
error register shows none of the checked error bits, whose FIFO level reads 0
and whose control register reports 0 valid bits in the last byte: exactly one
byte is drained and the bit length is `0 * 8 = 0`, computed before the
clamp. -/
lemma toCardReceive_fifo_zero (i n : Nat) (s : SpiState)
    (hi : i ≠ 0)
    (herr : s.reads (s.cursor + 1) % 256 &&& 0x1B = 0)
    (hfifo : s.reads (s.cursor + 2) % 256 = 0)
    (hctrl : s.reads (s.cursor + 3) % 256 &&& 0x07 = 0) :
    (toCardReceive PCD_TRANSCEIVE i n s).1.backData.length = 1 ∧
    (toCardReceive PCD_TRANSCEIVE i n s).1.backLen = 0 := by
  simp only [toCardReceive, readSPI_val, readSPI_reads, readSPI_cursor,
    clearBitMask_reads, clearBitMask_cursor]
  rw [if_pos hi]
  have e2 : s.cursor + 1 + 1 = s.cursor + 2 := by omega
  have e3 : s.cursor + 1 + 1 + 1 = s.cursor + 3 := by omega
  simp only [e2, e3, herr, hfifo, hctrl]
  norm_num [readFifo_length, MAX_LEN]

set_option linter.unusedVariables false in
/-- Claim C3 (amended): for a transceive whose poll loop exits with budget
remaining on a waitMask hit, with no error bits, FIFO level 0 and 0 valid
last-byte bits, `_toCard` drains exactly one byte but reports bit length 0
(the bit length is computed from the raw FIFO level before the clamp). -/
theorem toCard_transceive_fifo_zero (data : List Nat) (s0 : SpiState)
    (hpoll : (pollLoop 0x30 2000 (toCardSetup PCD_TRANSCEIVE data s0)).1.1 ≠ 0)
    (hhit : (pollLoop 0x30 2000 (toCardSetup PCD_TRANSCEIVE data s0)).1.2 &&& 0x30 ≠ 0)
    (herr : s0.reads
        ((pollLoop 0x30 2000 (toCardSetup PCD_TRANSCEIVE data s0)).2.cursor + 1)
        % 256 &&& 0x1B = 0)
    (hfifo : s0.reads
        ((pollLoop 0x30 2000 (toCardSetup PCD_TRANSCEIVE data s0)).2.cursor + 2)
        % 256 = 0)
    (hctrl : s0.reads
        ((pollLoop 0x30 2000 (toCardSetup PCD_TRANSCEIVE data s0)).2.cursor + 3)
        % 256 &&& 0x07 = 0) :
    (toCard PCD_TRANSCEIVE data s0).1.backData.length = 1 ∧
    (toCard PCD_TRANSCEIVE data s0).1.backLen = 0 := by
  have hwt : toCardWaitIRq PCD_TRANSCEIVE = 0x30 := rfl
  have hr : (pollLoop 0x30 2000 (toCardSetup PCD_TRANSCEIVE data s0)).2.reads = s0.reads := by
    rw [pollLoop_reads, toCardSetup_reads]
  simp only [toCard, hwt]
  exact toCardReceive_fifo_zero _ _ _ hpoll (by rw [hr]; exact herr)
    (by rw [hr]; exact hfifo) (by rw [hr]; exact hctrl)

/-- Claim C3 (counterexample to the claim as stated): on the oracle above the
transceive completes with status OK via a waitMask hit, drains exactly one
byte, and reports a response bit length of 0, not 8. -/
theorem toCard_fifo_zero_bitlen_cex :
    (toCard PCD_TRANSCEIVE [PICC_REQIDL] fifoZeroState).1.status = MI_OK ∧
    (toCard PCD_TRANSCEIVE [PICC_REQIDL] fifoZeroState).1.backData.length = 1 ∧
    (toCard PCD_TRANSCEIVE [PICC_REQIDL] fifoZeroState).1.backLen = 0 ∧
    ¬(toCard PCD_TRANSCEIVE [PICC_REQIDL] fifoZeroState).1.backLen = 8 := by
  decide

theorem toCard_transceive_fifo_zero_witness :
    ((pollLoop 0x30 2000 (toCardSetup PCD_TRANSCEIVE [PICC_REQIDL] fifoZeroState)).1.1 ≠ 0 ∧
     (pollLoop 0x30 2000 (toCardSetup PCD_TRANSCEIVE [PICC_REQIDL] fifoZeroState)).1.2 &&&
       0x30 ≠ 0) ∧
    (toCard PCD_TRANSCEIVE [PICC_REQIDL] fifoZeroState).1.backData.length = 1 ∧
    (toCard PCD_TRANSCEIVE [PICC_REQIDL] fifoZeroState).1.backLen = 0 :=
  ⟨⟨by decide, by decide⟩,
   toCard_transceive_fifo_zero [PICC_REQIDL] fifoZeroState (by decide) (by decide)
     (by decide) (by decide) (by decide)⟩

/-- Receive phase of a transceive: whenever the reported status is `MI_OK`,
between 1 and 16 bytes were drained into the response buffer. -/
lemma toCardReceive_ok_len (i n : Nat) (s : SpiState)
    (h : (toCardReceive PCD_TRANSCEIVE i n s).1.status = MI_OK) :
    1 ≤ (toCardReceive PCD_TRANSCEIVE i n s).1.backData.length ∧
    (toCardReceive PCD_TRANSCEIVE i n s).1.backData.length ≤ 16 := by
  revert h
  simp only [toCardReceive]
  split
  · split
    · split
      · intro h
        rw [readFifo_length]
        simp only [MAX_LEN]
        split_ifs <;> omega
      · intro h
        exact absurd trivial (by assumption)
    · intro h
      simp [MI_ERR, MI_OK] at h
  · intro h
    simp [MI_ERR, MI_OK] at h

/-- Whenever a transceive reports status `MI_OK`, the response buffer holds
between 1 and 16 bytes. -/
lemma toCard_ok_len (data : List Nat) (s : SpiState)
    (h : (toCard PCD_TRANSCEIVE data s).1.status = MI_OK) :
    1 ≤ (toCard PCD_TRANSCEIVE data s).1.backData.length ∧
    (toCard PCD_TRANSCEIVE data s).1.backData.length ≤ 16 := by
  simp only [toCard] at h ⊢
  exact toCardReceive_ok_len _ _ _ h

/-- Claim C9 (amended): `_readSector` either fails with `none` or returns the
transceive payload, which holds between 1 and 16 bytes (not always exactly
16). -/
theorem readSector_payload_bounds (sector : Nat) (s0 : SpiState) (l : List Nat)
    (h : (readSector sector s0).1 = some l) :
    1 ≤ l.length ∧ l.length ≤ 16 := by
  simp only [readSector] at h
  by_cases hs : (toCard PCD_TRANSCEIVE ([PICC_READ, sector] ++
      (calculateCRC [PICC_READ, sector] s0).1)
      (calculateCRC [PICC_READ, sector] s0).2).1.status ≠ MI_OK
  · rw [if_pos hs] at h
    exact absurd h (by simp)
  · rw [if_neg hs] at h
    have hl := Option.some.inj h
    rw [← hl]
    exact toCard_ok_len _ _ (not_not.mp hs)

/-- Claim C9 (counterexample to the claim as stated): on the oracle above
`_readSector` succeeds and returns a 1-byte payload, not 16 bytes. -/
theorem readSector_short_payload_cex :
    (readSector 5 shortPayloadState).1 = some [0x42] ∧
    ((readSector 5 shortPayloadState).1.map List.length) = some 1 ∧
    ((readSector 5 shortPayloadState).1.map List.length) ≠ some 16 := by
  decide

theorem readSector_payload_bounds_witness :
    (readSector 5 shortPayloadState).1 = some [0x42] ∧
    (1 ≤ ([0x42] : List Nat).length ∧ ([0x42] : List Nat).length ≤ 16) :=
  ⟨by decide, readSector_payload_bounds 5 shortPayloadState [0x42] (by decide)⟩

/-- Claim C2 (refuting evaluation): on the oracle above the first handshake
phase of `_writeSector` yields status OK, bit length 4 and an acknowledgment
nibble 0x2 ≠ 0xA, yet `_writeSector` runs the second phase and returns true:
the line 171 test `r.backData[0] & 0x0F !== 0x0A` parses in JavaScript as
`r.backData[0] & 1`, which byte 0x02 passes. -/
theorem writeSector_bad_ack_accepted :
    (toCard PCD_TRANSCEIVE ([PICC_WRITE, 4] ++ (calculateCRC [PICC_WRITE, 4] badAckState).1)
      (calculateCRC [PICC_WRITE, 4] badAckState).2).1.status = MI_OK ∧
    (toCard PCD_TRANSCEIVE ([PICC_WRITE, 4] ++ (calculateCRC [PICC_WRITE, 4] badAckState).1)
      (calculateCRC [PICC_WRITE, 4] badAckState).2).1.backLen = 4 ∧
    (toCard PCD_TRANSCEIVE ([PICC_WRITE, 4] ++ (calculateCRC [PICC_WRITE, 4] badAckState).1)
      (calculateCRC [PICC_WRITE, 4] badAckState).2).1.backData.getD 0 0 &&& 0x0F ≠ 0x0A ∧
    (writeSector 4 (List.replicate 16 0x11) badAckState).1 = true := by
  decide

/-- Checksum of an arbitrary 5-byte response: the source reduce over the
first 4 bytes equals the exclusive-OR of those bytes. -/
lemma uidChecksum_length5 (l : List Nat) (h : l.length = 5) :
    uidChecksum (l.take 4) =
      ((l.getD 0 0 ^^^ l.getD 1 0) ^^^ l.getD 2 0) ^^^ l.getD 3 0 := by
  rcases l with _ | ⟨a, l⟩
  · exfalso; simp only [List.length_nil] at h; omega
  rcases l with _ | ⟨b, l⟩
  · exfalso; simp only [List.length_cons, List.length_nil] at h; omega
  rcases l with _ | ⟨c, l⟩
  · exfalso; simp only [List.length_cons, List.length_nil] at h; omega
  rcases l with _ | ⟨d, l⟩
  · exfalso; simp only [List.length_cons, List.length_nil] at h; omega
  rcases l with _ | ⟨e, l⟩
  · exfalso; simp only [List.length_cons, List.length_nil] at h; omega
  rcases l with _ | ⟨f, l⟩
  · simp [uidChecksum, List.enum, List.enumFrom]
  · exfalso; simp only [List.length_cons, List.length_nil] at h; omega

/-- Claim C5: `_antiCollision` returns `some` exactly when the transceive
status is OK, exactly 5 response bytes came back and the 5th equals the
exclusive-OR of the first 4; the returned value is then the first 4 bytes,
a 4-byte UID. -/
theorem antiCollision_characterization (s0 : SpiState) :
    ((antiCollision s0).1 =
      if (toCard PCD_TRANSCEIVE [PICC_ANTICOLL, 0x20]
            (writeSPI BITFRAMING_REGISTER 0x00 s0)).1.status = MI_OK ∧
         (toCard PCD_TRANSCEIVE [PICC_ANTICOLL, 0x20]
            (writeSPI BITFRAMING_REGISTER 0x00 s0)).1.backData.length = 5 ∧
         (toCard PCD_TRANSCEIVE [PICC_ANTICOLL, 0x20]
            (writeSPI BITFRAMING_REGISTER 0x00 s0)).1.backData.getD 4 0 =
           (((toCard PCD_TRANSCEIVE [PICC_ANTICOLL, 0x20]
                (writeSPI BITFRAMING_REGISTER 0x00 s0)).1.backData.getD 0 0 ^^^
             (toCard PCD_TRANSCEIVE [PICC_ANTICOLL, 0x20]
                (writeSPI BITFRAMING_REGISTER 0x00 s0)).1.backData.getD 1 0) ^^^
            (toCard PCD_TRANSCEIVE [PICC_ANTICOLL, 0x20]
               (writeSPI BITFRAMING_REGISTER 0x00 s0)).1.backData.getD 2 0) ^^^
           (toCard PCD_TRANSCEIVE [PICC_ANTICOLL, 0x20]
              (writeSPI BITFRAMING_REGISTER 0x00 s0)).1.backData.getD 3 0
      then some ((toCard PCD_TRANSCEIVE [PICC_ANTICOLL, 0x20]
                    (writeSPI BITFRAMING_REGISTER 0x00 s0)).1.backData.take 4)
      else none) ∧
    ((antiCollision s0).1 = none ∨
      ∃ u, (antiCollision s0).1 = some u ∧ u.length = 4) := by
  simp only [antiCollision]
  generalize (toCard PCD_TRANSCEIVE [PICC_ANTICOLL, 0x20]
      (writeSPI BITFRAMING_REGISTER 0x00 s0)).1 = r
  by_cases h1 : r.status ≠ MI_OK
  · rw [if_pos h1, if_neg (fun hc => h1 hc.1)]
    exact ⟨rfl, Or.inl rfl⟩
  · have h1' := not_not.mp h1
    rw [if_neg h1]
    by_cases h2 : r.backData.length ≠ 5
    · rw [if_pos h2, if_neg (fun hc => h2 hc.2.1)]
      exact ⟨rfl, Or.inl rfl⟩
    · have h2' := not_not.mp h2
      rw [if_neg h2]
      have hcs := uidChecksum_length5 _ h2'
      by_cases h3 : uidChecksum (r.backData.take 4) ≠ r.backData.getD 4 0
      · rw [if_pos h3, if_neg (fun hc => h3 (by rw [hcs]; exact hc.2.2.symm))]
        exact ⟨rfl, Or.inl rfl⟩
      · have h3' := not_not.mp h3
        rw [if_neg h3, if_pos ⟨h1', h2', by rw [← hcs]; exact h3'.symm⟩]
        refine ⟨rfl, Or.inr ⟨_, rfl, ?_⟩⟩
        simp [List.length_take, h2']

/-- Claim C6: `_auth1A` returns true exactly when the authenticate transceive
reports status OK and the following read of status register 2 has the
crypto-active bit 0x08 set. -/
theorem auth1A_characterization (sector : Nat) (key uid : List Nat) (s0 : SpiState) :
    (auth1A sector key uid s0).1 = true ↔
      ((toCard PCD_AUTHENTICATE ([PICC_AUTHENT1A, sector] ++ key ++ uid) s0).1.status =
        MI_OK ∧
       (toCard PCD_AUTHENTICATE ([PICC_AUTHENT1A, sector] ++ key ++ uid) s0).2.reads
         (toCard PCD_AUTHENTICATE ([PICC_AUTHENT1A, sector] ++ key ++ uid) s0).2.cursor
         % 256 &&& 0x08 ≠ 0) := by
  simp only [auth1A, readSPI_val]
  generalize toCard PCD_AUTHENTICATE ([PICC_AUTHENT1A, sector] ++ key ++ uid) s0 = p
  by_cases h1 : p.1.status ≠ MI_OK
  · rw [if_pos h1]
    exact iff_of_false (by simp) (fun hc => h1 hc.1)
  · rw [if_neg h1]
    have h1' := not_not.mp h1
    by_cases h2 : p.2.reads p.2.cursor % 256 &&& 0x08 = 0
    · rw [if_pos h2]
      exact iff_of_false (by simp) (fun hc => hc.2 h2)
    · rw [if_neg h2]
      exact iff_of_true rfl ⟨h1', h2⟩

/-- Claim C8: `_cardPresent` reports a card exactly when the REQA transceive
(after setting 7-bit framing) reports status OK with a response bit length of
exactly 16. -/
theorem cardPresent_iff (s0 : SpiState) :
    (cardPresent s0).1 = true ↔
      ((toCard PCD_TRANSCEIVE [PICC_REQIDL]
          (writeSPI BITFRAMING_REGISTER 0x07 s0)).1.status = MI_OK ∧
       (toCard PCD_TRANSCEIVE [PICC_REQIDL]
          (writeSPI BITFRAMING_REGISTER 0x07 s0)).1.backLen = 0x10) := by
  simp only [cardPresent]
  generalize (toCard PCD_TRANSCEIVE [PICC_REQIDL]
      (writeSPI BITFRAMING_REGISTER 0x07 s0)).1 = r
  by_cases h1 : r.status ≠ MI_OK ∨ r.backLen ≠ 0x10
  · rw [if_pos h1]
    refine iff_of_false (by simp [MI_ERR, MI_OK]) ?_
    rintro ⟨ha, hb⟩
    rcases h1 with h | h
    exacts [h ha, h hb]
  · rw [if_neg h1]
    push_neg at h1
    exact iff_of_true (by simp [h1.1]) h1

/-! Characterization of the CRC coprocessor poll. -/

lemma readSPI_log (r : Nat) (s : SpiState) :
    (readSPI r s).2.log = SpiOp.rd r :: s.log := rfl

lemma wait_log (ms : Nat) (s : SpiState) :
    (wait ms s).log = SpiOp.delay ms :: s.log := rfl

lemma pollOps_snoc (p : Nat) :
    pollOps p ++ [SpiOp.rd DIVIRQ_REGISTER, SpiOp.delay 5] = pollOps (p + 1) := by
  induction p with
  | zero => rfl
  | succ q ih =>
    simp only [pollOps, List.cons_append]
    rw [ih]
    rfl

/-- One-step unfolding of the CRC poll with positive remaining budget. -/
lemma crcPoll_succ (k : Nat) (s : SpiState) :
    crcPoll (k + 1) s =
      if k ≠ 0 ∧ s.reads s.cursor % 256 &&& 0x04 = 0
      then crcPoll k (readSPI DIVIRQ_REGISTER (wait 5 s)).2
      else (s.reads s.cursor % 256, (readSPI DIVIRQ_REGISTER (wait 5 s)).2) := rfl

/-- Full characterization of the CRC poll entered with budget `a ≥ 1`: it
performs some number `p` of wait-and-read iterations with `1 ≤ p ≤ a`,
returns the last byte read, none of the earlier reads had the done bit 0x04,
and if it stopped before exhausting the budget the last byte has the done
bit set. -/
lemma crcPoll_spec (a : Nat) : ∀ (s : SpiState), 1 ≤ a →
    ∃ p, 1 ≤ p ∧ p ≤ a ∧
      (crcPoll a s).2.reads = s.reads ∧
      (crcPoll a s).2.cursor = s.cursor + p ∧
      (crcPoll a s).2.log = pollOps p ++ s.log ∧
      (crcPoll a s).1 = s.reads (s.cursor + (p - 1)) % 256 ∧
      (∀ j, j + 1 < p → s.reads (s.cursor + j) % 256 &&& 0x04 = 0) ∧
      (p < a → (crcPoll a s).1 &&& 0x04 ≠ 0) := by
  induction a with
  | zero => intro s h; omega
  | succ k ih =>
    intro s _
    by_cases hdone : k = 0 ∨ s.reads s.cursor % 256 &&& 0x04 ≠ 0
    · rw [crcPoll_succ, if_neg (by tauto)]
      refine ⟨1, by omega, by omega, rfl, rfl, rfl, by simp, by omega, ?_⟩
      intro hlt _
      rcases hdone with h0 | hbit
      · omega
      · simp at hbit
        exact absurd (by assumption) hbit
    · push_neg at hdone
      rw [crcPoll_succ, if_pos hdone]
      obtain ⟨p', hp1, hp2, hr, hc, hl, hv, hnb, hstop⟩ :=
        ih (readSPI DIVIRQ_REGISTER (wait 5 s)).2 (by omega)
      simp only [readSPI_reads, wait_reads, readSPI_cursor, wait_cursor,
        readSPI_log, wait_log] at hr hc hl hv hnb hstop
      refine ⟨p' + 1, by omega, by omega, hr, ?_, ?_, ?_, ?_, ?_⟩
      · rw [hc]; omega
      · rw [hl, show (SpiOp.rd DIVIRQ_REGISTER :: SpiOp.delay 5 :: s.log) =
          [SpiOp.rd DIVIRQ_REGISTER, SpiOp.delay 5] ++ s.log from rfl,
          ← List.append_assoc, pollOps_snoc]
      · rw [hv, show s.cursor + 1 + (p' - 1) = s.cursor + (p' + 1 - 1) from by omega]
      · intro j hj
        cases j with
        | zero => simpa using hdone.2
        | succ jj =>
          have := hnb jj (by omega)
          rw [show s.cursor + 1 + jj = s.cursor + (jj + 1) from by omega] at this
          exact this
      · intro hlt
        exact hstop (by omega)

/-- Claim C7: for every input byte sequence and chip behaviour,
`_calculateCRC` polls the DIVIRQ register at most 255 times, each poll
preceded by a 5 ms wait, stops early only when the CRC-done bit 0x04 is
observed, and in every case — including exhaustion of the 255-attempt budget
— returns (without any error path) the two result bytes read from the
CRC-result-low then CRC-result-high registers, the last two transactions in
the log. -/
theorem calculateCRC_poll_bounded (buf : List Nat) (s0 : SpiState) :
    ∃ p, 1 ≤ p ∧ p ≤ 255 ∧
      (calculateCRC buf s0).1 =
        [s0.reads (s0.cursor + 2 + p) % 256, s0.reads (s0.cursor + 3 + p) % 256] ∧
      (calculateCRC buf s0).2.cursor = s0.cursor + 4 + p ∧
      (calculateCRC buf s0).2.log =
        SpiOp.rd CRCRESULTM_REGISTER :: SpiOp.rd CRCRESULTL_REGISTER ::
          (pollOps p ++ (crcSetup buf s0).log) ∧
      (∀ j, j + 1 < p → s0.reads (s0.cursor + 2 + j) % 256 &&& 0x04 = 0) ∧
      (p < 255 → s0.reads (s0.cursor + 2 + (p - 1)) % 256 &&& 0x04 ≠ 0) := by
  obtain ⟨p, hp1, hp2, hr, hc, hl, hv, hnb, hstop⟩ :=
    crcPoll_spec 0xFF (crcSetup buf s0) (by norm_num)
  have hsr := crcSetup_reads buf s0
  have hsc := crcSetup_cursor buf s0
  rw [hsr] at hr
  rw [hsc] at hc
  rw [hsr, hsc] at hv
  simp only [hsr, hsc] at hnb
  refine ⟨p, hp1, hp2, ?_, ?_, ?_, ?_, ?_⟩
  · simp only [calculateCRC, readSPI_val, readSPI_reads, readSPI_cursor]
    rw [hr, hc, show s0.cursor + 2 + p + 1 = s0.cursor + 3 + p from by omega,
      show s0.cursor + 2 + p = s0.cursor + 2 + p from rfl]
  · simp only [calculateCRC, readSPI_cursor]
    rw [hc]
    omega
  · simp only [calculateCRC, readSPI_log]
    rw [hl]
  · exact hnb
  · intro hlt
    rw [hv] at hstop
    exact hstop hlt

theorem calculateCRC_poll_bounded_witness :
    ∃ p, 1 ≤ p ∧ p ≤ 255 ∧
      (calculateCRC [PICC_READ, 5] crcDoneState).1 =
        [crcDoneState.reads (crcDoneState.cursor + 2 + p) % 256,
         crcDoneState.reads (crcDoneState.cursor + 3 + p) % 256] ∧
      (calculateCRC [PICC_READ, 5] crcDoneState).2.cursor =
        crcDoneState.cursor + 4 + p ∧
      (calculateCRC [PICC_READ, 5] crcDoneState).2.log =
        SpiOp.rd CRCRESULTM_REGISTER :: SpiOp.rd CRCRESULTL_REGISTER ::
          (pollOps p ++ (crcSetup [PICC_READ, 5] crcDoneState).log) ∧
      (∀ j, j + 1 < p →
        crcDoneState.reads (crcDoneState.cursor + 2 + j) % 256 &&& 0x04 = 0) ∧
      (p < 255 →
        crcDoneState.reads (crcDoneState.cursor + 2 + (p - 1)) % 256 &&& 0x04 ≠ 0) :=
  calculateCRC_poll_bounded [PICC_READ, 5] crcDoneState

end Mfrc522
